import Mathlib

/-!
# metric-proxy: the mutual-TLS configuration builder of `config.go`

A shallow embedding of `NewBaseTLSConfig`, `NewMutualTLSConfig`,
`NewTLSCredentials` and `TLS.Credentials`.

* Go's `(value, error)` results of the package's own functions are kept as pairs
  of two nil-able components (`Ret`), so that "nil configuration together with
  an error" is a statement about the code and not a consequence of the type.
* The file system, the log of attempted file reads and the package-level
  variable `supportedCipherSuites` form the explicit state `World`, threaded
  through every function that touches it.
* The Go standard library and gRPC are outside the repository.  Their pure
  parsers (`tls.X509KeyPair`, PEM/X.509 decoding, `credentials.NewTLS`) are the
  parameters collected in `Lib`; `os.ReadFile`, `tls.LoadX509KeyPair`,
  `x509.CertPool` and `log.Fatalf` follow their documented behaviour.
-/

namespace MetricProxy

/-! ## Data model -/

/-- Raw file contents (`[]byte`). -/
abbrev Bytes := List Nat

/-- Go `error` values that can reach the package: `*fs.PathError` (what
`os.ReadFile` returns on failure), `*errors.errorString` (what `errors.New`
returns) and any other concrete error type of a library, given by the name of
its dynamic type and its message. -/
inductive Error where
  | pathError (Op : String) (Path : String) (Err : String)
  | errorString (s : String)
  | other (goType : String) (msg : String)
  deriving DecidableEq, Repr

/-- The `Error()` method of an error value: the text `%s` prints. -/
def Error.text : Error → String
  | .pathError op path err => op ++ " " ++ path ++ ": " ++ err
  | .errorString s => s
  | .other _ msg => msg

/-- The dynamic Go type of an error value, the "kind" a caller can switch on. -/
def Error.kind : Error → String
  | .pathError _ _ _ => "*fs.PathError"
  | .errorString _ => "*errors.errorString"
  | .other goType _ => goType

/-- Constructor `errors.New`. -/
def errorsNew (text : String) : Error := Error.errorString text

/-- What a path of the file system holds: readable contents, or a failure of the
given operation (`open`, `read`) with the given system error. -/
inductive File where
  | content (data : Bytes)
  | unreadable (Op : String) (Err : String)
  deriving DecidableEq, Repr

/-- Program state: the file system, the log of file reads attempted so far (in
order), and the current value of the package-level variable
`supportedCipherSuites`. -/
structure World where
  files : String → File
  reads : List String
  supportedCipherSuites : List Nat

/-- A loaded `tls.Certificate`: the certificate chain and the private key. -/
structure Certificate where
  Chain : List Bytes
  PrivateKey : Bytes
  deriving DecidableEq, Repr

/-- A parsed X.509 certificate, identified by its raw DER bytes. -/
abbrev X509Certificate := Bytes

/-- The certificates of an `x509.CertPool`, in insertion order, without duplicates. -/
structure CertPool where
  certs : List X509Certificate
  deriving DecidableEq, Repr

/-- The fields of `tls.Config` that the package sets; every other field keeps
its zero value.  `RootCAs` is a pointer, `none` is nil. -/
structure Config where
  InsecureSkipVerify : Bool
  MinVersion : Nat
  CipherSuites : List Nat
  ServerName : String
  Certificates : List Certificate
  RootCAs : Option CertPool
  deriving DecidableEq, Repr

/-- A Go result pair `(value, error)`; `none` is nil in either component. -/
structure Ret (α : Type) where
  val : Option α
  err : Option Error

/-- The library functions the package calls that are pure functions of their
arguments: `tls.X509KeyPair`, the sequence of certificates that PEM decoding and
`x509.ParseCertificate` extract from a bundle, and `credentials.NewTLS`. -/
structure Lib (Creds : Type) where
  X509KeyPair : Bytes → Bytes → Except Error Certificate
  pemCertificates : Bytes → List X509Certificate
  NewTLS : Config → Creds

/-- How a call that may stop the process ends: it returns a value, or the
process exits with a status code after writing a line to the standard logger. -/
inductive Outcome (α : Type) where
  | returned (v : α) (w : World)
  | exited (code : Nat) (logged : String) (w : World)

/-- The receiver of `Credentials`: the three paths read from the environment. -/
structure TLS where
  CAPath : String
  CertPath : String
  KeyPath : String

/-! ## Constants of `crypto/tls` -/

def VersionTLS12 : Nat := 0x0303

def TLS_ECDHE_RSA_WITH_AES_128_GCM_SHA256 : Nat := 0xc02f

def TLS_ECDHE_RSA_WITH_AES_256_GCM_SHA384 : Nat := 0xc030

/-! ## Library operations with an effect -/

/-- Function `ioutil.ReadFile` (`os.ReadFile`): the read is logged; a failure is
a `*fs.PathError` carrying the operation, the path and the system error. -/
def ReadFile (w : World) (name : String) : Except Error Bytes × World :=
  let w1 := { w with reads := w.reads ++ [name] }
  match w.files name with
  | .content data => (.ok data, w1)
  | .unreadable op err => (.error (.pathError op name err), w1)

/-- Function `tls.LoadX509KeyPair`: reads the certificate file, then the key
file, and hands both contents to `tls.X509KeyPair`; the first failure is
returned. -/
def LoadX509KeyPair {Creds : Type} (L : Lib Creds) (w : World) (certFile keyFile : String) :
    Except Error Certificate × World :=
  match ReadFile w certFile with
  | (.error err, w1) => (.error err, w1)
  | (.ok certPEMBlock, w1) =>
    match ReadFile w1 keyFile with
    | (.error err, w2) => (.error err, w2)
    | (.ok keyPEMBlock, w2) => (L.X509KeyPair certPEMBlock keyPEMBlock, w2)

/-- Function `x509.NewCertPool`. -/
def NewCertPool : CertPool := { certs := [] }

/-- Method `(*CertPool).AddCert`: a certificate already in the pool is not added again. -/
def CertPool.AddCert (s : CertPool) (cert : X509Certificate) : CertPool :=
  if cert ∈ s.certs then s else { certs := s.certs ++ [cert] }

/-- Method `(*CertPool).AppendCertsFromPEM`: appends every certificate found in
the bundle and reports whether any certificate was successfully parsed. -/
def CertPool.AppendCertsFromPEM {Creds : Type} (L : Lib Creds) (s : CertPool)
    (pemCerts : Bytes) : CertPool × Bool :=
  let found := L.pemCertificates pemCerts
  (found.foldl CertPool.AddCert s, !found.isEmpty)

/-- Function `log.Fatalf` with the format of `Credentials`: prints the line and
calls `os.Exit(1)`. -/
def logFatalf {α : Type} (w : World) (line : String) : Outcome α :=
  .exited 1 line w

/-! ## The package `config.go` -/

/-- The initialiser of the package-level variable `supportedCipherSuites`. -/
def supportedCipherSuites : List Nat :=
  [TLS_ECDHE_RSA_WITH_AES_128_GCM_SHA256, TLS_ECDHE_RSA_WITH_AES_256_GCM_SHA384]

/-- The state at process start: nothing read yet, the package variable holds its
initialiser. -/
def World.boot (files : String → File) : World :=
  { files := files, reads := [], supportedCipherSuites := MetricProxy.supportedCipherSuites }

/-- Function `NewBaseTLSConfig`; it reads the package variable. -/
def NewBaseTLSConfig (w : World) : Config :=
  { InsecureSkipVerify := false
    MinVersion := VersionTLS12
    CipherSuites := w.supportedCipherSuites
    ServerName := ""
    Certificates := []
    RootCAs := none }

/-- Function `NewMutualTLSConfig`. -/
def NewMutualTLSConfig {Creds : Type} (L : Lib Creds) (w : World)
    (caPath certPath keyPath cn : String) : Ret Config × World :=
  match LoadX509KeyPair L w certPath keyPath with
  | (.error err, w1) => ({ val := none, err := some err }, w1)
  | (.ok cert, w1) =>
    let tlsConfig := NewBaseTLSConfig w1
    let tlsConfig := { tlsConfig with ServerName := cn }
    let tlsConfig := { tlsConfig with Certificates := [cert] }
    match ReadFile w1 caPath with
    | (.error err, w2) => ({ val := none, err := some err }, w2)
    | (.ok caCertBytes, w2) =>
      match CertPool.AppendCertsFromPEM L NewCertPool caCertBytes with
      | (_, false) => ({ val := none, err := some (errorsNew "cannot parse ca cert") }, w2)
      | (caCertPool, true) =>
        ({ val := some { tlsConfig with RootCAs := some caCertPool }, err := none }, w2)

/-- Function `NewTLSCredentials`.  `credentials.NewTLS` is applied to the
configuration pointer that came back with a nil error. -/
def NewTLSCredentials {Creds : Type} (L : Lib Creds) (w : World)
    (caPath certPath keyPath cn : String) : Ret Creds × World :=
  match NewMutualTLSConfig L w caPath certPath keyPath cn with
  | (r, w1) =>
    match r.err with
    | some err => ({ val := none, err := some err }, w1)
    | none => ({ val := r.val.map L.NewTLS, err := none }, w1)

/-- Method `(t TLS) Credentials`. -/
def TLS.Credentials {Creds : Type} (t : TLS) (L : Lib Creds) (w : World) (cn : String) :
    Outcome (Option Creds) :=
  match NewTLSCredentials L w t.CAPath t.CertPath t.KeyPath cn with
  | (r, w1) =>
    match r.err with
    | some err => logFatalf w1 ("failed to load TLS config: " ++ err.text)
    | none => .returned r.val w1

/-- The certificates a configuration trusts: the members of its root pool. -/
def Config.trusted (c : Config) : List X509Certificate :=
  match c.RootCAs with
  | some pool => pool.certs
  | none => []

/-! ## A concrete deployment, used to exercise the model -/

/-- A file system with a certificate, its key, a CA bundle, a bundle without any
certificate, and nothing else. -/
def demoFiles : String → File := fun name =>
  if name = "cert.pem" then .content [1]
  else if name = "key.pem" then .content [2]
  else if name = "ca.pem" then .content [7, 8]
  else if name = "empty.pem" then .content []
  else .unreadable "open" "no such file or directory"

/-- A library instance: the key `[2]` matches the certificate `[1]`, every byte
of a bundle is one certificate, and credentials record the configuration
together with the `h2` protocol. -/
def demoLib : Lib (Config × List String) :=
  { X509KeyPair := fun certPEMBlock keyPEMBlock =>
      if certPEMBlock = [1] ∧ keyPEMBlock = [2] then
        .ok { Chain := [certPEMBlock], PrivateKey := keyPEMBlock }
      else .error (.errorString "tls: private key does not match public key")
    pemCertificates := fun pemCerts => pemCerts.map fun b => [b]
    NewTLS := fun c => (c, ["h2"]) }

/-- The process state at start on the demo file system. -/
def demoWorld : World := World.boot demoFiles

/-- The key pair of the demo deployment. -/
def demoCert : Certificate := { Chain := [[1]], PrivateKey := [2] }

/-- The configuration the demo deployment builds for a server name. -/
def demoConfig (cn : String) : Config :=
  { InsecureSkipVerify := false
    MinVersion := 0x0303
    CipherSuites := [0xc02f, 0xc030]
    ServerName := cn
    Certificates := [demoCert]
    RootCAs := some { certs := [[7], [8]] } }

/-! ## Basic facts about the library operations -/

/-- Every failure of `ReadFile` is a path error that names the path read. -/
theorem ReadFile_error (w : World) (name : String) (e : Error)
    (h : (ReadFile w name).1 = .error e) :
    ∃ op err, w.files name = .unreadable op err ∧ e = .pathError op name err := by
  unfold ReadFile at h
  cases hf : w.files name with
  | content data => rw [hf] at h; cases h
  | unreadable op err =>
    rw [hf] at h
    simp only [Except.error.injEq] at h
    exact ⟨op, err, rfl, h.symm⟩

/-- The loader, spelled out on the contents of the file system. -/
theorem LoadX509KeyPair_eq {Creds : Type} (L : Lib Creds) (w : World)
    (certFile keyFile : String) :
    LoadX509KeyPair L w certFile keyFile =
      match w.files certFile with
      | .unreadable op err =>
        (.error (.pathError op certFile err), { w with reads := w.reads ++ [certFile] })
      | .content certPEMBlock =>
        match w.files keyFile with
        | .unreadable op err =>
          (.error (.pathError op keyFile err),
            { w with reads := w.reads ++ [certFile, keyFile] })
        | .content keyPEMBlock =>
          (L.X509KeyPair certPEMBlock keyPEMBlock,
            { w with reads := w.reads ++ [certFile, keyFile] }) := by
  cases hc : w.files certFile with
  | unreadable op err => simp [LoadX509KeyPair, ReadFile, hc]
  | content cb =>
    cases hk : w.files keyFile with
    | unreadable op err => simp [LoadX509KeyPair, ReadFile, hc, hk]
    | content kb => simp [LoadX509KeyPair, ReadFile, hc, hk]

/-- The loader leaves the file system and the package variable alone. -/
theorem LoadX509KeyPair_frame {Creds : Type} (L : Lib Creds) (w : World)
    (certFile keyFile : String) :
    (LoadX509KeyPair L w certFile keyFile).2.files = w.files ∧
    (LoadX509KeyPair L w certFile keyFile).2.supportedCipherSuites
      = w.supportedCipherSuites := by
  rw [LoadX509KeyPair_eq]
  cases hc : w.files certFile with
  | unreadable op err => exact ⟨rfl, rfl⟩
  | content cb =>
    cases hk : w.files keyFile with
    | unreadable op err => exact ⟨rfl, rfl⟩
    | content kb => exact ⟨rfl, rfl⟩

/-- The outcome of the loader depends on the file system only. -/
theorem LoadX509KeyPair_congr {Creds : Type} (L : Lib Creds) (w w2 : World)
    (certFile keyFile : String) (hf : w2.files = w.files) :
    (LoadX509KeyPair L w2 certFile keyFile).1 = (LoadX509KeyPair L w certFile keyFile).1 := by
  rw [LoadX509KeyPair_eq, LoadX509KeyPair_eq, hf]
  cases hc : w.files certFile with
  | unreadable op err => rfl
  | content cb =>
    cases hk : w.files keyFile with
    | unreadable op err => rfl
    | content kb => rfl

/-- Adding a certificate never removes one. -/
theorem AddCert_mem_of_mem (s : CertPool) (c x : X509Certificate) (h : x ∈ s.certs) :
    x ∈ (s.AddCert c).certs := by
  unfold CertPool.AddCert
  split
  · exact h
  · exact List.mem_append_left _ h

theorem AddCert_mem_self (s : CertPool) (c : X509Certificate) : c ∈ (s.AddCert c).certs := by
  unfold CertPool.AddCert
  split
  · assumption
  · simp

theorem foldl_AddCert_mem_of_mem (found : List X509Certificate) (s : CertPool)
    (x : X509Certificate) (h : x ∈ s.certs) :
    x ∈ (found.foldl CertPool.AddCert s).certs := by
  induction found generalizing s with
  | nil => exact h
  | cons c rest ih => exact ih _ (AddCert_mem_of_mem s c x h)

/-- Every certificate found in the bundle ends up in the pool. -/
theorem foldl_AddCert_mem (found : List X509Certificate) (s : CertPool)
    (x : X509Certificate) (h : x ∈ found) :
    x ∈ (found.foldl CertPool.AddCert s).certs := by
  induction found generalizing s with
  | nil => cases h
  | cons c rest ih =>
    rcases List.mem_cons.mp h with rfl | h2
    · exact foldl_AddCert_mem_of_mem rest _ _ (AddCert_mem_self s _)
    · exact ih _ h2

/-- A pool that reported success is not empty. -/
theorem AppendCertsFromPEM_true_nonempty {Creds : Type} (L : Lib Creds) (s : CertPool)
    (pemCerts : Bytes) (h : (s.AppendCertsFromPEM L pemCerts).2 = true) :
    (s.AppendCertsFromPEM L pemCerts).1.certs ≠ [] := by
  unfold CertPool.AppendCertsFromPEM at h ⊢
  simp only at h ⊢
  cases hfound : L.pemCertificates pemCerts with
  | nil => rw [hfound] at h; simp at h
  | cons c rest =>
    have hm := foldl_AddCert_mem (c :: rest) s c (List.mem_cons_self _ _)
    intro hnil
    rw [hnil] at hm
    cases hm

/-- A successful load changes the read log only: two reads are added. -/
theorem LoadX509KeyPair_ok_world {Creds : Type} (L : Lib Creds) (w : World)
    (certFile keyFile : String) (cert : Certificate)
    (h : (LoadX509KeyPair L w certFile keyFile).1 = .ok cert) :
    (LoadX509KeyPair L w certFile keyFile).2
      = { w with reads := w.reads ++ [certFile, keyFile] } := by
  rw [LoadX509KeyPair_eq] at h ⊢
  cases hc : w.files certFile with
  | unreadable op err => rw [hc] at h; cases h
  | content cb =>
    cases hk : w.files keyFile with
    | unreadable op err => rfl
    | content kb => rfl

/-! ## The four ways through `NewMutualTLSConfig` -/

/-- First exit: the key pair does not load. -/
theorem NewMutualTLSConfig_load_error {Creds : Type} (L : Lib Creds) (w : World)
    (caPath certPath keyPath cn : String) (e : Error)
    (h : (LoadX509KeyPair L w certPath keyPath).1 = .error e) :
    NewMutualTLSConfig L w caPath certPath keyPath cn
      = ({ val := none, err := some e }, (LoadX509KeyPair L w certPath keyPath).2) := by
  unfold NewMutualTLSConfig
  rcases hl : LoadX509KeyPair L w certPath keyPath with ⟨r, w1⟩
  rw [hl] at h
  simp only at h
  subst h
  rfl

/-- Second exit: the key pair loads, the CA file cannot be read. -/
theorem NewMutualTLSConfig_ca_unreadable {Creds : Type} (L : Lib Creds) (w : World)
    (caPath certPath keyPath cn : String) (cert : Certificate) (op err : String)
    (h : (LoadX509KeyPair L w certPath keyPath).1 = .ok cert)
    (hf : w.files caPath = .unreadable op err) :
    NewMutualTLSConfig L w caPath certPath keyPath cn
      = ({ val := none, err := some (.pathError op caPath err) },
         { w with reads := w.reads ++ [certPath, keyPath, caPath] }) := by
  have hw := LoadX509KeyPair_ok_world L w certPath keyPath cert h
  unfold NewMutualTLSConfig
  rcases hl : LoadX509KeyPair L w certPath keyPath with ⟨r, w1⟩
  rw [hl] at h hw
  simp only at h hw
  subst h hw
  simp [ReadFile, hf]

/-- Third exit: the CA file is read and holds no certificate. -/
theorem NewMutualTLSConfig_no_cert {Creds : Type} (L : Lib Creds) (w : World)
    (caPath certPath keyPath cn : String) (cert : Certificate) (caCertBytes : Bytes)
    (h : (LoadX509KeyPair L w certPath keyPath).1 = .ok cert)
    (hf : w.files caPath = .content caCertBytes)
    (hp : L.pemCertificates caCertBytes = []) :
    NewMutualTLSConfig L w caPath certPath keyPath cn
      = ({ val := none, err := some (.errorString "cannot parse ca cert") },
         { w with reads := w.reads ++ [certPath, keyPath, caPath] }) := by
  have hw := LoadX509KeyPair_ok_world L w certPath keyPath cert h
  unfold NewMutualTLSConfig
  rcases hl : LoadX509KeyPair L w certPath keyPath with ⟨r, w1⟩
  rw [hl] at h hw
  simp only at h hw
  subst h hw
  simp [ReadFile, hf, CertPool.AppendCertsFromPEM, hp, errorsNew]

/-- The way to the end: the CA file is read and holds a certificate. -/
theorem NewMutualTLSConfig_success {Creds : Type} (L : Lib Creds) (w : World)
    (caPath certPath keyPath cn : String) (cert : Certificate) (caCertBytes : Bytes)
    (h : (LoadX509KeyPair L w certPath keyPath).1 = .ok cert)
    (hf : w.files caPath = .content caCertBytes)
    (hp : L.pemCertificates caCertBytes ≠ []) :
    NewMutualTLSConfig L w caPath certPath keyPath cn
      = ({ val := some
             { InsecureSkipVerify := false
               MinVersion := VersionTLS12
               CipherSuites := w.supportedCipherSuites
               ServerName := cn
               Certificates := [cert]
               RootCAs := some (NewCertPool.AppendCertsFromPEM L caCertBytes).1 },
           err := none },
         { w with reads := w.reads ++ [certPath, keyPath, caPath] }) := by
  have hw := LoadX509KeyPair_ok_world L w certPath keyPath cert h
  unfold NewMutualTLSConfig
  rcases hl : LoadX509KeyPair L w certPath keyPath with ⟨r, w1⟩
  rw [hl] at h hw
  simp only at h hw
  subst h hw
  simp only [ReadFile, hf, CertPool.AppendCertsFromPEM, NewBaseTLSConfig]
  cases hfound : L.pemCertificates caCertBytes with
  | nil => exact absurd hfound hp
  | cons c rest => simp

/-- Every call takes one of the four ways. -/
theorem NewMutualTLSConfig_cases {Creds : Type} (L : Lib Creds) (w : World)
    (caPath certPath keyPath : String) :
    (∃ e, (LoadX509KeyPair L w certPath keyPath).1 = .error e) ∨
    (∃ cert op err, (LoadX509KeyPair L w certPath keyPath).1 = .ok cert ∧
      w.files caPath = .unreadable op err) ∨
    (∃ cert caCertBytes, (LoadX509KeyPair L w certPath keyPath).1 = .ok cert ∧
      w.files caPath = .content caCertBytes ∧ L.pemCertificates caCertBytes = []) ∨
    (∃ cert caCertBytes, (LoadX509KeyPair L w certPath keyPath).1 = .ok cert ∧
      w.files caPath = .content caCertBytes ∧ L.pemCertificates caCertBytes ≠ []) := by
  cases hl : (LoadX509KeyPair L w certPath keyPath).1 with
  | error e => exact Or.inl ⟨e, rfl⟩
  | ok cert =>
    cases hf : w.files caPath with
    | unreadable op err => exact Or.inr (Or.inl ⟨cert, op, err, rfl, rfl⟩)
    | content b =>
      by_cases hp : L.pemCertificates b = []
      · exact Or.inr (Or.inr (Or.inl ⟨cert, b, rfl, rfl, hp⟩))
      · exact Or.inr (Or.inr (Or.inr ⟨cert, b, rfl, rfl, hp⟩))

/-- The report of `AppendCertsFromPEM` says whether the bundle held a certificate. -/
theorem AppendCertsFromPEM_report {Creds : Type} (L : Lib Creds) (s : CertPool)
    (pemCerts : Bytes) :
    (s.AppendCertsFromPEM L pemCerts).2 = true ↔ L.pemCertificates pemCerts ≠ [] := by
  unfold CertPool.AppendCertsFromPEM
  cases L.pemCertificates pemCerts <;> simp

/-- No call changes the file system or the package variable. -/
theorem NewMutualTLSConfig_frame {Creds : Type} (L : Lib Creds) (w : World)
    (caPath certPath keyPath cn : String) :
    (NewMutualTLSConfig L w caPath certPath keyPath cn).2.files = w.files ∧
    (NewMutualTLSConfig L w caPath certPath keyPath cn).2.supportedCipherSuites
      = w.supportedCipherSuites := by
  rcases NewMutualTLSConfig_cases L w caPath certPath keyPath with
    ⟨e, h⟩ | ⟨cert, op, err, h, hf⟩ | ⟨cert, b, h, hf, hp⟩ | ⟨cert, b, h, hf, hp⟩
  · rw [NewMutualTLSConfig_load_error L w caPath certPath keyPath cn e h]
    exact LoadX509KeyPair_frame L w certPath keyPath
  · rw [NewMutualTLSConfig_ca_unreadable L w caPath certPath keyPath cn cert op err h hf]
    exact ⟨rfl, rfl⟩
  · rw [NewMutualTLSConfig_no_cert L w caPath certPath keyPath cn cert b h hf hp]
    exact ⟨rfl, rfl⟩
  · rw [NewMutualTLSConfig_success L w caPath certPath keyPath cn cert b h hf hp]
    exact ⟨rfl, rfl⟩

/-- The result of a call depends on the file system and the package variable only. -/
theorem NewMutualTLSConfig_congr {Creds : Type} (L : Lib Creds) (w w2 : World)
    (caPath certPath keyPath cn : String) (hfiles : w2.files = w.files)
    (hvar : w2.supportedCipherSuites = w.supportedCipherSuites) :
    (NewMutualTLSConfig L w2 caPath certPath keyPath cn).1
      = (NewMutualTLSConfig L w caPath certPath keyPath cn).1 := by
  have hl := LoadX509KeyPair_congr L w w2 certPath keyPath hfiles
  rcases NewMutualTLSConfig_cases L w caPath certPath keyPath with
    ⟨e, h⟩ | ⟨cert, op, err, h, hf⟩ | ⟨cert, b, h, hf, hp⟩ | ⟨cert, b, h, hf, hp⟩
  · rw [NewMutualTLSConfig_load_error L w caPath certPath keyPath cn e h,
      NewMutualTLSConfig_load_error L w2 caPath certPath keyPath cn e (hl.trans h)]
  · rw [NewMutualTLSConfig_ca_unreadable L w caPath certPath keyPath cn cert op err h hf,
      NewMutualTLSConfig_ca_unreadable L w2 caPath certPath keyPath cn cert op err
        (hl.trans h) (by rw [hfiles]; exact hf)]
  · rw [NewMutualTLSConfig_no_cert L w caPath certPath keyPath cn cert b h hf hp,
      NewMutualTLSConfig_no_cert L w2 caPath certPath keyPath cn cert b
        (hl.trans h) (by rw [hfiles]; exact hf) hp]
  · rw [NewMutualTLSConfig_success L w caPath certPath keyPath cn cert b h hf hp,
      NewMutualTLSConfig_success L w2 caPath certPath keyPath cn cert b
        (hl.trans h) (by rw [hfiles]; exact hf) hp, hvar]

/-- A successful load found both files readable and paired their contents. -/
theorem LoadX509KeyPair_ok_files {Creds : Type} (L : Lib Creds) (w : World)
    (certFile keyFile : String) (cert : Certificate)
    (h : (LoadX509KeyPair L w certFile keyFile).1 = .ok cert) :
    ∃ certPEMBlock keyPEMBlock, w.files certFile = .content certPEMBlock ∧
      w.files keyFile = .content keyPEMBlock ∧
      L.X509KeyPair certPEMBlock keyPEMBlock = .ok cert := by
  rw [LoadX509KeyPair_eq] at h
  cases hc : w.files certFile with
  | unreadable op err => rw [hc] at h; cases h
  | content cb =>
    cases hk : w.files keyFile with
    | unreadable op err => rw [hc, hk] at h; cases h
    | content kb =>
      rw [hc, hk] at h
      exact ⟨cb, kb, rfl, rfl, h⟩

/-- When the certificate file cannot be read, or it can and the key file cannot,
the loader fails with that read error, a path error naming the file. -/
theorem LoadX509KeyPair_read_error {Creds : Type} (L : Lib Creds) (w : World)
    (certFile keyFile : String) (e : Error)
    (h : (ReadFile w certFile).1 = .error e ∨
      ((∃ data, (ReadFile w certFile).1 = .ok data) ∧ (ReadFile w keyFile).1 = .error e)) :
    (LoadX509KeyPair L w certFile keyFile).1 = .error e ∧
    ((∃ op err, e = .pathError op certFile err) ∨ (∃ op err, e = .pathError op keyFile err)) := by
  rw [LoadX509KeyPair_eq]
  rcases h with hc | ⟨⟨data, hc⟩, hk⟩
  · obtain ⟨op, err, hf, rfl⟩ := ReadFile_error w certFile e hc
    rw [hf]
    exact ⟨rfl, Or.inl ⟨op, err, rfl⟩⟩
  · obtain ⟨op, err, hf, rfl⟩ := ReadFile_error w keyFile e hk
    cases hcf : w.files certFile with
    | unreadable op2 err2 =>
      unfold ReadFile at hc
      rw [hcf] at hc
      cases hc
    | content cb =>
      rw [hf]
      exact ⟨rfl, Or.inr ⟨op, err, rfl⟩⟩

/-! ## The claims -/

/-- C1: whenever `NewMutualTLSConfig` succeeds (nil error) in a process whose
package variable holds its initialiser, a configuration is returned with
`InsecureSkipVerify = false`, `MinVersion = VersionTLS12` and `CipherSuites`
equal, in order, to `supportedCipherSuites`, the list of the two ECDHE-RSA
AES-GCM suites. -/
theorem NewMutualTLSConfig_policy {Creds : Type} (L : Lib Creds) (w : World)
    (caPath certPath keyPath cn : String)
    (hvar : w.supportedCipherSuites = supportedCipherSuites)
    (hok : (NewMutualTLSConfig L w caPath certPath keyPath cn).1.err = none) :
    ∃ cfg, (NewMutualTLSConfig L w caPath certPath keyPath cn).1.val = some cfg ∧
      cfg.InsecureSkipVerify = false ∧
      cfg.MinVersion = VersionTLS12 ∧
      cfg.CipherSuites = supportedCipherSuites ∧
      cfg.CipherSuites =
        [TLS_ECDHE_RSA_WITH_AES_128_GCM_SHA256, TLS_ECDHE_RSA_WITH_AES_256_GCM_SHA384] := by
  rcases NewMutualTLSConfig_cases L w caPath certPath keyPath with
    ⟨e, h⟩ | ⟨cert, op, err, h, hf⟩ | ⟨cert, b, h, hf, hp⟩ | ⟨cert, b, h, hf, hp⟩
  · rw [NewMutualTLSConfig_load_error L w caPath certPath keyPath cn e h] at hok
    cases hok
  · rw [NewMutualTLSConfig_ca_unreadable L w caPath certPath keyPath cn cert op err h hf] at hok
    cases hok
  · rw [NewMutualTLSConfig_no_cert L w caPath certPath keyPath cn cert b h hf hp] at hok
    cases hok
  · rw [NewMutualTLSConfig_success L w caPath certPath keyPath cn cert b h hf hp]
    exact ⟨_, rfl, rfl, rfl, hvar, hvar⟩

/-- Witness of C1: the demo deployment builds its configuration for
`logcache.example.com`. -/
theorem NewMutualTLSConfig_policy_witness :
    demoWorld.supportedCipherSuites = supportedCipherSuites ∧
    (NewMutualTLSConfig demoLib demoWorld "ca.pem" "cert.pem" "key.pem"
      "logcache.example.com").1.err = none ∧
    ∃ cfg, (NewMutualTLSConfig demoLib demoWorld "ca.pem" "cert.pem" "key.pem"
        "logcache.example.com").1.val = some cfg ∧
      cfg.InsecureSkipVerify = false ∧
      cfg.MinVersion = VersionTLS12 ∧
      cfg.CipherSuites = supportedCipherSuites ∧
      cfg.CipherSuites =
        [TLS_ECDHE_RSA_WITH_AES_128_GCM_SHA256, TLS_ECDHE_RSA_WITH_AES_256_GCM_SHA384] :=
  ⟨rfl, by decide,
    NewMutualTLSConfig_policy demoLib demoWorld "ca.pem" "cert.pem" "key.pem"
      "logcache.example.com" rfl (by decide)⟩

/-- C2: when the key pair loads and the CA file is readable but
`AppendCertsFromPEM` reports false (no certificate in the bundle),
`NewMutualTLSConfig` returns a nil configuration and the error
`cannot parse ca cert`; and no call at all returns a configuration whose trust
pool is missing or empty. -/
theorem NewMutualTLSConfig_ca_without_certificate {Creds : Type} (L : Lib Creds) (w : World)
    (caPath certPath keyPath cn : String) (cert : Certificate) (caCertBytes : Bytes)
    (hload : (LoadX509KeyPair L w certPath keyPath).1 = .ok cert)
    (hread : w.files caPath = .content caCertBytes)
    (hparse : (NewCertPool.AppendCertsFromPEM L caCertBytes).2 = false) :
    (NewMutualTLSConfig L w caPath certPath keyPath cn).1.val = none ∧
    (NewMutualTLSConfig L w caPath certPath keyPath cn).1.err
      = some (errorsNew "cannot parse ca cert") ∧
    ∀ (w2 : World) (caPath2 certPath2 keyPath2 cn2 : String) (cfg : Config),
      (NewMutualTLSConfig L w2 caPath2 certPath2 keyPath2 cn2).1.val = some cfg →
      ∃ pool, cfg.RootCAs = some pool ∧ pool.certs ≠ [] := by
  have hp : L.pemCertificates caCertBytes = [] := by
    by_contra hne
    rw [(AppendCertsFromPEM_report L NewCertPool caCertBytes).mpr hne] at hparse
    cases hparse
  rw [NewMutualTLSConfig_no_cert L w caPath certPath keyPath cn cert caCertBytes hload hread hp]
  refine ⟨rfl, rfl, ?_⟩
  intro w2 caPath2 certPath2 keyPath2 cn2 cfg hcfg
  rcases NewMutualTLSConfig_cases L w2 caPath2 certPath2 keyPath2 with
    ⟨e, h⟩ | ⟨c, op, err, h, hf⟩ | ⟨c, b, h, hf, hp2⟩ | ⟨c, b, h, hf, hp2⟩
  · rw [NewMutualTLSConfig_load_error L w2 caPath2 certPath2 keyPath2 cn2 e h] at hcfg
    cases hcfg
  · rw [NewMutualTLSConfig_ca_unreadable L w2 caPath2 certPath2 keyPath2 cn2 c op err h hf]
      at hcfg
    cases hcfg
  · rw [NewMutualTLSConfig_no_cert L w2 caPath2 certPath2 keyPath2 cn2 c b h hf hp2] at hcfg
    cases hcfg
  · rw [NewMutualTLSConfig_success L w2 caPath2 certPath2 keyPath2 cn2 c b h hf hp2] at hcfg
    simp only [Option.some.injEq] at hcfg
    subst hcfg
    exact ⟨_, rfl, AppendCertsFromPEM_true_nonempty L NewCertPool b
      ((AppendCertsFromPEM_report L NewCertPool b).mpr hp2)⟩

/-- Witness of C2: the demo deployment pointed at the bundle without any
certificate. -/
theorem NewMutualTLSConfig_ca_without_certificate_witness :
    (LoadX509KeyPair demoLib demoWorld "cert.pem" "key.pem").1 = .ok demoCert ∧
    demoWorld.files "empty.pem" = .content [] ∧
    (NewCertPool.AppendCertsFromPEM demoLib []).2 = false ∧
    (NewMutualTLSConfig demoLib demoWorld "empty.pem" "cert.pem" "key.pem" "cn").1.val = none ∧
    (NewMutualTLSConfig demoLib demoWorld "empty.pem" "cert.pem" "key.pem" "cn").1.err
      = some (errorsNew "cannot parse ca cert") :=
  have h := NewMutualTLSConfig_ca_without_certificate demoLib demoWorld "empty.pem"
    "cert.pem" "key.pem" "cn" demoCert [] rfl rfl rfl
  ⟨rfl, rfl, rfl, h.1, h.2.1⟩

/-- C3: when loading the key pair fails, `NewMutualTLSConfig` returns a nil
configuration and exactly the loader's error, for every `caPath` and server name
and whatever the CA file holds: the CA file is not even read. -/
theorem NewMutualTLSConfig_key_pair_error_first {Creds : Type} (L : Lib Creds) (w : World)
    (certPath keyPath : String) (e : Error)
    (hload : (LoadX509KeyPair L w certPath keyPath).1 = .error e) :
    ∀ caPath cn : String,
      (NewMutualTLSConfig L w caPath certPath keyPath cn).1.val = none ∧
      (NewMutualTLSConfig L w caPath certPath keyPath cn).1.err = some e ∧
      (NewMutualTLSConfig L w caPath certPath keyPath cn).2
        = (LoadX509KeyPair L w certPath keyPath).2 := by
  intro caPath cn
  rw [NewMutualTLSConfig_load_error L w caPath certPath keyPath cn e hload]
  exact ⟨rfl, rfl, rfl⟩

/-- Witness of C3: certificate and key swapped, so the pair does not match; the
CA path is missing and the CA bundle without certificates is tried as well. -/
theorem NewMutualTLSConfig_key_pair_error_first_witness :
    (LoadX509KeyPair demoLib demoWorld "key.pem" "cert.pem").1
      = .error (.errorString "tls: private key does not match public key") ∧
    (NewMutualTLSConfig demoLib demoWorld "missing.pem" "key.pem" "cert.pem" "cn").1.err
      = some (.errorString "tls: private key does not match public key") ∧
    (NewMutualTLSConfig demoLib demoWorld "empty.pem" "key.pem" "cert.pem" "cn").1.err
      = some (.errorString "tls: private key does not match public key") :=
  have h := NewMutualTLSConfig_key_pair_error_first demoLib demoWorld "key.pem" "cert.pem"
    (.errorString "tls: private key does not match public key") rfl
  ⟨rfl, (h "missing.pem" "cn").2.1, (h "empty.pem" "cn").2.1⟩

/-- C4, as stated, fails: on the demo file system a call whose certificate file
is missing (a certificate-load failure) and a call whose key pair loads but whose
CA file is missing (a CA read failure) return errors of the same kind,
`*fs.PathError`, with the same operation, path and system error, hence the same
text: the caller has nothing to tell the two reasons apart. -/
theorem ca_read_error_same_as_certificate_load_error :
    (LoadX509KeyPair demoLib demoWorld "missing.pem" "key.pem").1
      = .error (.pathError "open" "missing.pem" "no such file or directory") ∧
    (NewMutualTLSConfig demoLib demoWorld "ca.pem" "missing.pem" "key.pem" "cn").1.err
      = some (.pathError "open" "missing.pem" "no such file or directory") ∧
    (LoadX509KeyPair demoLib demoWorld "cert.pem" "key.pem").1 = .ok demoCert ∧
    (ReadFile demoWorld "missing.pem").1
      = .error (.pathError "open" "missing.pem" "no such file or directory") ∧
    (NewMutualTLSConfig demoLib demoWorld "missing.pem" "cert.pem" "key.pem" "cn").1.err
      = some (.pathError "open" "missing.pem" "no such file or directory") ∧
    ((NewMutualTLSConfig demoLib demoWorld "ca.pem" "missing.pem" "key.pem" "cn").1.err.map
        Error.kind = some "*fs.PathError") ∧
    ((NewMutualTLSConfig demoLib demoWorld "missing.pem" "cert.pem" "key.pem" "cn").1.err.map
        Error.kind = some "*fs.PathError") ∧
    ((NewMutualTLSConfig demoLib demoWorld "ca.pem" "missing.pem" "key.pem" "cn").1.err.map
        Error.text = some "open missing.pem: no such file or directory") ∧
    ((NewMutualTLSConfig demoLib demoWorld "missing.pem" "cert.pem" "key.pem" "cn").1.err.map
        Error.text = some "open missing.pem: no such file or directory") :=
  ⟨rfl, rfl, rfl, rfl, rfl, rfl, rfl, by decide, by decide⟩

/-- C4, amended: when the key pair loads and the CA file cannot be read,
`NewMutualTLSConfig` returns a nil configuration and exactly the error of
`ReadFile` (the CA read error), a `*fs.PathError` that names `caPath`; that
error differs in value and in kind from the CA parse error.  It has no kind of
its own against a certificate/key load failure: whenever, in any state and for
any paths, the certificate file or the key file cannot be read, the loader and
`NewMutualTLSConfig` fail with that read error, a `*fs.PathError` as well, of
the same kind as the CA read error and naming the certificate or key path.  The
two are told apart only by the path named: `caPath` differs from `certPath` and
`keyPath` of the call, and on the same file system a read error equals the CA
read error exactly when it is the error of reading `caPath`. -/
theorem NewMutualTLSConfig_ca_read_error {Creds : Type} (L : Lib Creds) (w : World)
    (caPath certPath keyPath cn : String) (cert : Certificate) (e : Error)
    (hload : (LoadX509KeyPair L w certPath keyPath).1 = .ok cert)
    (hread : (ReadFile w caPath).1 = .error e) :
    (NewMutualTLSConfig L w caPath certPath keyPath cn).1.val = none ∧
    (NewMutualTLSConfig L w caPath certPath keyPath cn).1.err = some e ∧
    (∃ op err, e = .pathError op caPath err) ∧
    e.kind = "*fs.PathError" ∧
    e ≠ errorsNew "cannot parse ca cert" ∧
    e.kind ≠ (errorsNew "cannot parse ca cert").kind ∧
    (∀ (w2 : World) (caPath2 certPath2 keyPath2 cn2 : String) (e2 : Error),
      ((ReadFile w2 certPath2).1 = .error e2 ∨
        ((∃ data, (ReadFile w2 certPath2).1 = .ok data) ∧
          (ReadFile w2 keyPath2).1 = .error e2)) →
      (LoadX509KeyPair L w2 certPath2 keyPath2).1 = .error e2 ∧
      (NewMutualTLSConfig L w2 caPath2 certPath2 keyPath2 cn2).1.val = none ∧
      (NewMutualTLSConfig L w2 caPath2 certPath2 keyPath2 cn2).1.err = some e2 ∧
      e2.kind = e.kind ∧
      ((∃ op err, e2 = .pathError op certPath2 err) ∨
        (∃ op err, e2 = .pathError op keyPath2 err))) ∧
    caPath ≠ certPath ∧
    caPath ≠ keyPath ∧
    (∀ (name : String) (e2 : Error), (ReadFile w name).1 = .error e2 →
      (e2 = e ↔ name = caPath)) := by
  obtain ⟨op, err, hf, rfl⟩ := ReadFile_error w caPath e hread
  obtain ⟨cb, kb, hcf, hkf, _⟩ := LoadX509KeyPair_ok_files L w certPath keyPath cert hload
  rw [NewMutualTLSConfig_ca_unreadable L w caPath certPath keyPath cn cert op err hload hf]
  refine ⟨rfl, rfl, ⟨op, err, rfl⟩, rfl, ?_, ?_, ?_, ?_, ?_, ?_⟩
  · intro h
    cases h
  · show "*fs.PathError" ≠ "*errors.errorString"
    decide
  · intro w2 caPath2 certPath2 keyPath2 cn2 e2 h2
    obtain ⟨hl2, hnames⟩ := LoadX509KeyPair_read_error L w2 certPath2 keyPath2 e2 h2
    rw [NewMutualTLSConfig_load_error L w2 caPath2 certPath2 keyPath2 cn2 e2 hl2]
    refine ⟨hl2, rfl, rfl, ?_, hnames⟩
    rcases hnames with ⟨op2, err2, rfl⟩ | ⟨op2, err2, rfl⟩ <;> rfl
  · intro heq
    rw [heq, hcf] at hf
    cases hf
  · intro heq
    rw [heq, hkf] at hf
    cases hf
  · intro name e2 h2
    obtain ⟨op2, err2, hf2, rfl⟩ := ReadFile_error w name e2 h2
    constructor
    · intro heq
      simp only [Error.pathError.injEq] at heq
      exact heq.2.1
    · intro hname
      subst hname
      rw [hf] at hf2
      simp only [File.unreadable.injEq] at hf2
      rw [hf2.1, hf2.2]

/-- Witness of C4, amended: the demo deployment with a missing CA file; the same
file named as certificate makes the loader fail with a path error as well. -/
theorem NewMutualTLSConfig_ca_read_error_witness :
    (LoadX509KeyPair demoLib demoWorld "cert.pem" "key.pem").1 = .ok demoCert ∧
    (ReadFile demoWorld "missing.pem").1
      = .error (.pathError "open" "missing.pem" "no such file or directory") ∧
    (NewMutualTLSConfig demoLib demoWorld "missing.pem" "cert.pem" "key.pem" "cn").1.val = none ∧
    (NewMutualTLSConfig demoLib demoWorld "missing.pem" "cert.pem" "key.pem" "cn").1.err
      = some (.pathError "open" "missing.pem" "no such file or directory") ∧
    (NewMutualTLSConfig demoLib demoWorld "ca.pem" "cert.pem" "gone.pem" "cn").1.err
      = some (.pathError "open" "gone.pem" "no such file or directory") ∧
    (Error.pathError "open" "gone.pem" "no such file or directory").kind
      = (Error.pathError "open" "missing.pem" "no such file or directory").kind ∧
    "missing.pem" ≠ "cert.pem" ∧
    "missing.pem" ≠ "key.pem" :=
  have h := NewMutualTLSConfig_ca_read_error demoLib demoWorld "missing.pem" "cert.pem"
    "key.pem" "cn" demoCert (.pathError "open" "missing.pem" "no such file or directory")
    rfl rfl
  have h2 := h.2.2.2.2.2.2.1 demoWorld "ca.pem" "cert.pem" "gone.pem" "cn"
    (.pathError "open" "gone.pem" "no such file or directory") (Or.inr ⟨⟨[1], rfl⟩, rfl⟩)
  ⟨rfl, rfl, h.1, h.2.1, h2.2.2.1, h2.2.2.2.1, h.2.2.2.2.2.2.2.1, h.2.2.2.2.2.2.2.2.1⟩

/-- Credentials are returned exactly when a configuration is, with the same error. -/
theorem NewTLSCredentials_eq {Creds : Type} (L : Lib Creds) (w : World)
    (caPath certPath keyPath cn : String) :
    NewTLSCredentials L w caPath certPath keyPath cn =
      match (NewMutualTLSConfig L w caPath certPath keyPath cn).1.err with
      | some err =>
        ({ val := none, err := some err }, (NewMutualTLSConfig L w caPath certPath keyPath cn).2)
      | none =>
        ({ val := (NewMutualTLSConfig L w caPath certPath keyPath cn).1.val.map L.NewTLS,
           err := none },
         (NewMutualTLSConfig L w caPath certPath keyPath cn).2) := by
  unfold NewTLSCredentials
  rcases NewMutualTLSConfig L w caPath certPath keyPath cn with ⟨r, w1⟩
  cases hr : r.err <;> simp [hr]

/-- C5: a configuration, and with it a credentials object, is returned if and
only if the key pair loaded, the CA file was read and `AppendCertsFromPEM`
reported a certificate.  In that case the error is nil and, the package variable
holding its initialiser, the cipher-suite list is not empty; in every other case
both the configuration and the credentials are nil and an error is returned. -/
theorem configuration_returned_iff {Creds : Type} (L : Lib Creds) (w : World)
    (caPath certPath keyPath cn : String)
    (hvar : w.supportedCipherSuites = supportedCipherSuites) :
    ((∃ cfg, (NewMutualTLSConfig L w caPath certPath keyPath cn).1.val = some cfg) ↔
      ∃ cert caCertBytes, (LoadX509KeyPair L w certPath keyPath).1 = .ok cert ∧
        w.files caPath = .content caCertBytes ∧
        (NewCertPool.AppendCertsFromPEM L caCertBytes).2 = true) ∧
    ((∃ creds, (NewTLSCredentials L w caPath certPath keyPath cn).1.val = some creds) ↔
      ∃ cfg, (NewMutualTLSConfig L w caPath certPath keyPath cn).1.val = some cfg) ∧
    (∀ cfg, (NewMutualTLSConfig L w caPath certPath keyPath cn).1.val = some cfg →
      (NewMutualTLSConfig L w caPath certPath keyPath cn).1.err = none ∧
      (NewTLSCredentials L w caPath certPath keyPath cn).1.err = none ∧
      cfg.CipherSuites ≠ []) ∧
    ((NewMutualTLSConfig L w caPath certPath keyPath cn).1.val = none →
      (NewTLSCredentials L w caPath certPath keyPath cn).1.val = none ∧
      ∃ e, (NewMutualTLSConfig L w caPath certPath keyPath cn).1.err = some e ∧
        (NewTLSCredentials L w caPath certPath keyPath cn).1.err = some e) := by
  rw [NewTLSCredentials_eq]
  rcases NewMutualTLSConfig_cases L w caPath certPath keyPath with
    ⟨e, h⟩ | ⟨cert, op, err, h, hf⟩ | ⟨cert, b, h, hf, hp⟩ | ⟨cert, b, h, hf, hp⟩
  · rw [NewMutualTLSConfig_load_error L w caPath certPath keyPath cn e h]
    simp [h]
  · rw [NewMutualTLSConfig_ca_unreadable L w caPath certPath keyPath cn cert op err h hf]
    simp [h, hf]
  · rw [NewMutualTLSConfig_no_cert L w caPath certPath keyPath cn cert b h hf hp]
    have hrep : (NewCertPool.AppendCertsFromPEM L b).2 = false := by
      cases hb : (NewCertPool.AppendCertsFromPEM L b).2 with
      | false => rfl
      | true => exact absurd hp ((AppendCertsFromPEM_report L NewCertPool b).mp hb)
    simp [h, hf, hrep]
  · rw [NewMutualTLSConfig_success L w caPath certPath keyPath cn cert b h hf hp]
    have hrep := (AppendCertsFromPEM_report L NewCertPool b).mpr hp
    simp [h, hf, hrep, hvar, supportedCipherSuites]

/-- Witness of C5: the demo deployment returns a configuration and credentials. -/
theorem configuration_returned_iff_witness :
    demoWorld.supportedCipherSuites = supportedCipherSuites ∧
    ((∃ cfg, (NewMutualTLSConfig demoLib demoWorld "ca.pem" "cert.pem" "key.pem"
        "cn").1.val = some cfg) ↔
      ∃ cert caCertBytes, (LoadX509KeyPair demoLib demoWorld "cert.pem" "key.pem").1 = .ok cert ∧
        demoWorld.files "ca.pem" = .content caCertBytes ∧
        (NewCertPool.AppendCertsFromPEM demoLib caCertBytes).2 = true) ∧
    (NewMutualTLSConfig demoLib demoWorld "ca.pem" "cert.pem" "key.pem" "cn").1.val
      = some (demoConfig "cn") ∧
    (NewTLSCredentials demoLib demoWorld "ca.pem" "cert.pem" "key.pem" "cn").1.val
      = some (demoConfig "cn", ["h2"]) :=
  ⟨rfl, (configuration_returned_iff demoLib demoWorld "ca.pem" "cert.pem" "key.pem" "cn" rfl).1,
    rfl, rfl⟩

/-- C6: on every successful call, for every server name, the configuration has
`ServerName = cn`, its `Certificates` list has exactly one entry, the key pair
loaded from `(certPath, keyPath)`, and its `RootCAs` is the pool that
`AppendCertsFromPEM` builds from the bytes of the file at `caPath`. -/
theorem NewMutualTLSConfig_fields {Creds : Type} (L : Lib Creds) (w : World)
    (caPath certPath keyPath cn : String)
    (hok : (NewMutualTLSConfig L w caPath certPath keyPath cn).1.err = none) :
    ∃ cfg cert caCertBytes,
      (NewMutualTLSConfig L w caPath certPath keyPath cn).1.val = some cfg ∧
      (LoadX509KeyPair L w certPath keyPath).1 = .ok cert ∧
      w.files caPath = .content caCertBytes ∧
      cfg.ServerName = cn ∧
      cfg.Certificates = [cert] ∧
      cfg.Certificates.length = 1 ∧
      cfg.RootCAs = some (NewCertPool.AppendCertsFromPEM L caCertBytes).1 := by
  rcases NewMutualTLSConfig_cases L w caPath certPath keyPath with
    ⟨e, h⟩ | ⟨cert, op, err, h, hf⟩ | ⟨cert, b, h, hf, hp⟩ | ⟨cert, b, h, hf, hp⟩
  · rw [NewMutualTLSConfig_load_error L w caPath certPath keyPath cn e h] at hok
    cases hok
  · rw [NewMutualTLSConfig_ca_unreadable L w caPath certPath keyPath cn cert op err h hf] at hok
    cases hok
  · rw [NewMutualTLSConfig_no_cert L w caPath certPath keyPath cn cert b h hf hp] at hok
    cases hok
  · rw [NewMutualTLSConfig_success L w caPath certPath keyPath cn cert b h hf hp]
    exact ⟨_, cert, b, rfl, h, hf, rfl, rfl, rfl, rfl⟩

/-- Witness of C6: the demo deployment with the empty server name, which the
builder accepts. -/
theorem NewMutualTLSConfig_fields_witness :
    (NewMutualTLSConfig demoLib demoWorld "ca.pem" "cert.pem" "key.pem" "").1.err = none ∧
    (NewMutualTLSConfig demoLib demoWorld "ca.pem" "cert.pem" "key.pem" "").1.val
      = some (demoConfig "") ∧
    ∃ cfg cert caCertBytes,
      (NewMutualTLSConfig demoLib demoWorld "ca.pem" "cert.pem" "key.pem" "").1.val = some cfg ∧
      (LoadX509KeyPair demoLib demoWorld "cert.pem" "key.pem").1 = .ok cert ∧
      demoWorld.files "ca.pem" = .content caCertBytes ∧
      cfg.ServerName = "" ∧
      cfg.Certificates = [cert] ∧
      cfg.Certificates.length = 1 ∧
      cfg.RootCAs = some (NewCertPool.AppendCertsFromPEM demoLib caCertBytes).1 :=
  ⟨rfl, rfl, NewMutualTLSConfig_fields demoLib demoWorld "ca.pem" "cert.pem" "key.pem" "" rfl⟩

/-- C7: `NewTLSCredentials` fails exactly when `NewMutualTLSConfig` fails, then
returning nil credentials and the same error unchanged; otherwise it returns
`credentials.NewTLS` of exactly the configuration produced, with a nil error.
The state it leaves is the one `NewMutualTLSConfig` leaves. -/
theorem NewTLSCredentials_delegates {Creds : Type} (L : Lib Creds) (w : World)
    (caPath certPath keyPath cn : String) :
    (NewTLSCredentials L w caPath certPath keyPath cn).1.err
      = (NewMutualTLSConfig L w caPath certPath keyPath cn).1.err ∧
    (NewTLSCredentials L w caPath certPath keyPath cn).2
      = (NewMutualTLSConfig L w caPath certPath keyPath cn).2 ∧
    (∀ e, (NewMutualTLSConfig L w caPath certPath keyPath cn).1.err = some e →
      (NewTLSCredentials L w caPath certPath keyPath cn).1.val = none ∧
      (NewTLSCredentials L w caPath certPath keyPath cn).1.err = some e) ∧
    ((NewMutualTLSConfig L w caPath certPath keyPath cn).1.err = none →
      ∃ cfg, (NewMutualTLSConfig L w caPath certPath keyPath cn).1.val = some cfg ∧
        (NewTLSCredentials L w caPath certPath keyPath cn).1.val = some (L.NewTLS cfg) ∧
        (NewTLSCredentials L w caPath certPath keyPath cn).1.err = none) := by
  rw [NewTLSCredentials_eq]
  rcases NewMutualTLSConfig_cases L w caPath certPath keyPath with
    ⟨e, h⟩ | ⟨cert, op, err, h, hf⟩ | ⟨cert, b, h, hf, hp⟩ | ⟨cert, b, h, hf, hp⟩
  · rw [NewMutualTLSConfig_load_error L w caPath certPath keyPath cn e h]
    simp
  · rw [NewMutualTLSConfig_ca_unreadable L w caPath certPath keyPath cn cert op err h hf]
    simp
  · rw [NewMutualTLSConfig_no_cert L w caPath certPath keyPath cn cert b h hf hp]
    simp
  · rw [NewMutualTLSConfig_success L w caPath certPath keyPath cn cert b h hf hp]
    simp

/-- C8, as stated, fails: the successful build of the demo deployment starts with
an empty read log and ends with three reads in it, not two. -/
theorem successful_build_reads_three_files :
    (NewMutualTLSConfig demoLib demoWorld "ca.pem" "cert.pem" "key.pem" "cn").1.err = none ∧
    demoWorld.reads = [] ∧
    (NewMutualTLSConfig demoLib demoWorld "ca.pem" "cert.pem" "key.pem" "cn").2.reads
      = ["cert.pem", "key.pem", "ca.pem"] ∧
    (NewMutualTLSConfig demoLib demoWorld "ca.pem" "cert.pem" "key.pem" "cn").2.reads.length
      ≠ demoWorld.reads.length + 2 :=
  ⟨rfl, rfl, rfl, by decide⟩

/-- C8, amended: a successful call to `NewMutualTLSConfig` reads exactly three
files, `certPath`, `keyPath` and `caPath` in this order, and changes nothing
else: the file system and the package variable `supportedCipherSuites` are the
same before and after the call. -/
theorem NewMutualTLSConfig_effects {Creds : Type} (L : Lib Creds) (w : World)
    (caPath certPath keyPath cn : String)
    (hok : (NewMutualTLSConfig L w caPath certPath keyPath cn).1.err = none) :
    (NewMutualTLSConfig L w caPath certPath keyPath cn).2.reads
      = w.reads ++ [certPath, keyPath, caPath] ∧
    (NewMutualTLSConfig L w caPath certPath keyPath cn).2.reads.length = w.reads.length + 3 ∧
    (NewMutualTLSConfig L w caPath certPath keyPath cn).2.files = w.files ∧
    (NewMutualTLSConfig L w caPath certPath keyPath cn).2.supportedCipherSuites
      = w.supportedCipherSuites := by
  rcases NewMutualTLSConfig_cases L w caPath certPath keyPath with
    ⟨e, h⟩ | ⟨cert, op, err, h, hf⟩ | ⟨cert, b, h, hf, hp⟩ | ⟨cert, b, h, hf, hp⟩
  · rw [NewMutualTLSConfig_load_error L w caPath certPath keyPath cn e h] at hok
    cases hok
  · rw [NewMutualTLSConfig_ca_unreadable L w caPath certPath keyPath cn cert op err h hf] at hok
    cases hok
  · rw [NewMutualTLSConfig_no_cert L w caPath certPath keyPath cn cert b h hf hp] at hok
    cases hok
  · rw [NewMutualTLSConfig_success L w caPath certPath keyPath cn cert b h hf hp]
    refine ⟨rfl, ?_, rfl, rfl⟩
    simp

/-- Witness of C8, amended: the demo deployment. -/
theorem NewMutualTLSConfig_effects_witness :
    (NewMutualTLSConfig demoLib demoWorld "ca.pem" "cert.pem" "key.pem" "cn").1.err = none ∧
    (NewMutualTLSConfig demoLib demoWorld "ca.pem" "cert.pem" "key.pem" "cn").2.reads
      = demoWorld.reads ++ ["cert.pem", "key.pem", "ca.pem"] ∧
    (NewMutualTLSConfig demoLib demoWorld "ca.pem" "cert.pem" "key.pem" "cn").2.supportedCipherSuites
      = demoWorld.supportedCipherSuites :=
  have h := NewMutualTLSConfig_effects demoLib demoWorld "ca.pem" "cert.pem" "key.pem" "cn" rfl
  ⟨rfl, h.1, h.2.2.2⟩

/-- C9: calling `NewMutualTLSConfig` a second time with the same arguments, in the
state the first call left (same file system), gives the same outcome: after a
success a second success with identical `InsecureSkipVerify`, `MinVersion`,
`CipherSuites`, `ServerName` and `Certificates` and a trust pool with the same
members; after a failure a second failure with the same error, hence the same
error kind. -/
theorem NewMutualTLSConfig_repeatable {Creds : Type} (L : Lib Creds) (w : World)
    (caPath certPath keyPath cn : String) :
    (∀ cfg1, (NewMutualTLSConfig L w caPath certPath keyPath cn).1.val = some cfg1 →
      ∃ cfg2,
        (NewMutualTLSConfig L (NewMutualTLSConfig L w caPath certPath keyPath cn).2
          caPath certPath keyPath cn).1.val = some cfg2 ∧
        (NewMutualTLSConfig L (NewMutualTLSConfig L w caPath certPath keyPath cn).2
          caPath certPath keyPath cn).1.err = none ∧
        cfg2.InsecureSkipVerify = cfg1.InsecureSkipVerify ∧
        cfg2.MinVersion = cfg1.MinVersion ∧
        cfg2.CipherSuites = cfg1.CipherSuites ∧
        cfg2.ServerName = cfg1.ServerName ∧
        cfg2.Certificates = cfg1.Certificates ∧
        ∀ x, x ∈ cfg2.trusted ↔ x ∈ cfg1.trusted) ∧
    (∀ e, (NewMutualTLSConfig L w caPath certPath keyPath cn).1.err = some e →
      (NewMutualTLSConfig L (NewMutualTLSConfig L w caPath certPath keyPath cn).2
        caPath certPath keyPath cn).1.val = none ∧
      ∃ e2,
        (NewMutualTLSConfig L (NewMutualTLSConfig L w caPath certPath keyPath cn).2
          caPath certPath keyPath cn).1.err = some e2 ∧
        e2.kind = e.kind ∧ e2 = e) := by
  have hfr := NewMutualTLSConfig_frame L w caPath certPath keyPath cn
  have hsame := NewMutualTLSConfig_congr L w
    (NewMutualTLSConfig L w caPath certPath keyPath cn).2 caPath certPath keyPath cn
    hfr.1 hfr.2
  rw [hsame]
  constructor
  · intro cfg1 h1
    refine ⟨cfg1, h1, ?_, rfl, rfl, rfl, rfl, rfl, fun _ => Iff.rfl⟩
    cases herr : (NewMutualTLSConfig L w caPath certPath keyPath cn).1.err with
    | none => rfl
    | some e =>
      exfalso
      rcases NewMutualTLSConfig_cases L w caPath certPath keyPath with
        ⟨e, h⟩ | ⟨cert, op, err, h, hf⟩ | ⟨cert, b, h, hf, hp⟩ | ⟨cert, b, h, hf, hp⟩
      · rw [NewMutualTLSConfig_load_error L w caPath certPath keyPath cn e h] at h1
        cases h1
      · rw [NewMutualTLSConfig_ca_unreadable L w caPath certPath keyPath cn cert op err h hf]
          at h1
        cases h1
      · rw [NewMutualTLSConfig_no_cert L w caPath certPath keyPath cn cert b h hf hp] at h1
        cases h1
      · rw [NewMutualTLSConfig_success L w caPath certPath keyPath cn cert b h hf hp] at herr
        cases herr
  · intro e he
    refine ⟨?_, e, he, rfl, rfl⟩
    rcases NewMutualTLSConfig_cases L w caPath certPath keyPath with
      ⟨e, h⟩ | ⟨cert, op, err, h, hf⟩ | ⟨cert, b, h, hf, hp⟩ | ⟨cert, b, h, hf, hp⟩
    · rw [NewMutualTLSConfig_load_error L w caPath certPath keyPath cn e h]
    · rw [NewMutualTLSConfig_ca_unreadable L w caPath certPath keyPath cn cert op err h hf]
    · rw [NewMutualTLSConfig_no_cert L w caPath certPath keyPath cn cert b h hf hp]
    · rw [NewMutualTLSConfig_success L w caPath certPath keyPath cn cert b h hf hp] at he
      cases he

/-- C10: `TLS.Credentials` exits the process if and only if `NewTLSCredentials`
on the receiver's three paths returns an error, with status 1 and the line
`failed to load TLS config: ` followed by the error text; otherwise it returns
exactly the credentials `NewTLSCredentials` returned.  `NewTLSCredentials` and
`NewMutualTLSConfig` always return, and what they return is either a value with
a nil error or a nil value with the error. -/
theorem Credentials_exits_iff {Creds : Type} (t : TLS) (L : Lib Creds) (w : World)
    (cn : String) :
    ((∃ code line w2, t.Credentials L w cn = .exited code line w2) ↔
      ∃ e, (NewTLSCredentials L w t.CAPath t.CertPath t.KeyPath cn).1.err = some e) ∧
    (∀ e, (NewTLSCredentials L w t.CAPath t.CertPath t.KeyPath cn).1.err = some e →
      t.Credentials L w cn
        = .exited 1 ("failed to load TLS config: " ++ e.text)
            (NewTLSCredentials L w t.CAPath t.CertPath t.KeyPath cn).2) ∧
    ((NewTLSCredentials L w t.CAPath t.CertPath t.KeyPath cn).1.err = none →
      t.Credentials L w cn
        = .returned (NewTLSCredentials L w t.CAPath t.CertPath t.KeyPath cn).1.val
            (NewTLSCredentials L w t.CAPath t.CertPath t.KeyPath cn).2) ∧
    (∀ caPath certPath keyPath : String,
      ((∃ creds, (NewTLSCredentials L w caPath certPath keyPath cn).1.val = some creds ∧
          (NewTLSCredentials L w caPath certPath keyPath cn).1.err = none) ∨
        (∃ e, (NewTLSCredentials L w caPath certPath keyPath cn).1.val = none ∧
          (NewTLSCredentials L w caPath certPath keyPath cn).1.err = some e)) ∧
      ((∃ cfg, (NewMutualTLSConfig L w caPath certPath keyPath cn).1.val = some cfg ∧
          (NewMutualTLSConfig L w caPath certPath keyPath cn).1.err = none) ∨
        (∃ e, (NewMutualTLSConfig L w caPath certPath keyPath cn).1.val = none ∧
          (NewMutualTLSConfig L w caPath certPath keyPath cn).1.err = some e))) := by
  refine ⟨?_, ?_, ?_, ?_⟩
  · unfold TLS.Credentials logFatalf
    rcases NewTLSCredentials L w t.CAPath t.CertPath t.KeyPath cn with ⟨r, w1⟩
    cases hr : r.err <;> simp [hr]
  · intro e he
    unfold TLS.Credentials logFatalf
    generalize NewTLSCredentials L w t.CAPath t.CertPath t.KeyPath cn = p at he ⊢
    rcases p with ⟨r, w1⟩
    have he2 : r.err = _ := he
    simp [he2]
  · intro he
    unfold TLS.Credentials
    generalize NewTLSCredentials L w t.CAPath t.CertPath t.KeyPath cn = p at he ⊢
    rcases p with ⟨r, w1⟩
    have he2 : r.err = _ := he
    simp [he2]
  · intro caPath certPath keyPath
    rw [NewTLSCredentials_eq]
    rcases NewMutualTLSConfig_cases L w caPath certPath keyPath with
      ⟨e, h⟩ | ⟨cert, op, err, h, hf⟩ | ⟨cert, b, h, hf, hp⟩ | ⟨cert, b, h, hf, hp⟩
    · rw [NewMutualTLSConfig_load_error L w caPath certPath keyPath cn e h]
      simp
    · rw [NewMutualTLSConfig_ca_unreadable L w caPath certPath keyPath cn cert op err h hf]
      simp
    · rw [NewMutualTLSConfig_no_cert L w caPath certPath keyPath cn cert b h hf hp]
      simp
    · rw [NewMutualTLSConfig_success L w caPath certPath keyPath cn cert b h hf hp]
      simp

end MetricProxy
